import Mathlib

/-!
Shallow embedding of `nemo/collections/tts/data/vocoder_dataset.py`:
the `VocoderDataset` pipeline (manifest ingestion, duration filtering,
weighted sampling, audio segment extraction with retry, feature-processor
chain, batch collation).

External collaborators (the audio decode library, the manifest reader) are
modelled as oracle parameters; repository utilities that live outside this
file's source (`filter_dataset_by_duration`, `get_abs_rel_paths`,
`get_weighted_sampler`, `stack_tensors`) are modelled from the spec and
marked as such.  Audio sample values are modelled as rationals, machine
floats carrying no arithmetic in the code under study; Python `dict`
iteration order is modelled by association lists in insertion order.
-/

/-- A filesystem path: an absolute-or-relative flag plus a component list
(mirroring `pathlib.Path`). -/
structure FsPath where
  absolute : Bool
  components : List String
  deriving DecidableEq, Repr

/-- Path join `base / p` as in `pathlib`: an absolute right operand wins,
otherwise components are appended. -/
def joinPath (base p : FsPath) : FsPath :=
  if p.absolute then p else ⟨base.absolute, base.components ++ p.components⟩

/-- Modelled from the spec: `pathlib`-style `relative_to`, meaningful when the
base's components lead the path's components. -/
def relativeTo (p base : FsPath) : FsPath :=
  ⟨false, p.components.drop base.components.length⟩

/-- Modelled from the spec: the path utility
`resolve(relative_path, base_dir) -> (absolute_path, relative_path)`
(`get_abs_rel_paths` in `tts_dataset_utils`, not under the sources studied
here): an absolute input is kept and relativised against the base, a relative
input is resolved against the base and kept as the relative part. -/
def get_abs_rel_paths (input_path base_path : FsPath) : FsPath × FsPath :=
  if input_path.absolute then
    (input_path, relativeTo input_path base_path)
  else
    (joinPath base_path input_path, input_path)

/-- One manifest entry: an open-ended record, of which the pipeline reads the
audio file path and the duration (seconds). -/
structure ManifestEntry where
  audio_filepath : FsPath
  duration : ℚ
  deriving DecidableEq, Repr

/-- Record `DatasetMeta`: one named audio collection (manifest location, audio root,
sampling weight). -/
structure DatasetMeta where
  manifest_path : String
  audio_dir : FsPath
  sample_weight : ℚ
  deriving DecidableEq, Repr

/-- Record `DatasetSample`: one indexable unit, a manifest entry plus its audio
root. -/
structure DatasetSample where
  manifest_entry : ManifestEntry
  audio_dir : FsPath
  deriving DecidableEq, Repr

/-- The per-item example record: the three fields the dataset itself writes
(`audio_filepath`, `audio`, `audio_len`). -/
structure Example where
  audio_filepath : FsPath
  audio : List ℚ
  audio_len : Nat
  deriving DecidableEq, Repr

/-- A feature processor: `process(example)` mutating the example, modelled as
a function on examples. -/
def FeatureProcessor : Type := Example → Example

/-- Errors of the audio sampling path: an underlying library exception
propagated unchanged from the full-file decode, or the terminal error raised
after the segment read retries are exhausted, carrying the file path
(`ValueError(f"Failed to read audio {audio_filepath}")`). -/
inductive AudioError where
  | decodeFailure : AudioError
  | audioReadError : FsPath → AudioError
  deriving DecidableEq, Repr

/-- Python truthiness of an optional integer: `None` and `0` are falsy,
everything else truthy. -/
def pyTruthyInt : Option Int → Bool
  | none => false
  | some n => n != 0

/-- Modelled from the spec: the duration filter utility
`filter(entries, min, max) -> (filtered_entries, total_hours,
filtered_hours)` (`filter_dataset_by_duration`, not under the sources studied
here): keeps, in order, the entries whose duration lies within the inclusive
bounds, an absent bound being no bound; reports total durations in hours. -/
def filter_dataset_by_duration (entries : List ManifestEntry)
    (min_duration max_duration : Option ℚ) :
    List ManifestEntry × ℚ × ℚ :=
  let keep : ManifestEntry → Bool := fun e =>
    (match min_duration with
     | none => true
     | some lo => decide (lo ≤ e.duration)) &&
    (match max_duration with
     | none => true
     | some hi => decide (e.duration ≤ hi))
  let filtered := entries.filter keep
  (filtered,
   ((entries.map ManifestEntry.duration).sum) / 3600,
   ((filtered.map ManifestEntry.duration).sum) / 3600)

/-- The handle produced by the weighted-sampler builder. -/
structure SamplerHandle where
  sample_weights : List ℚ
  batch_size : Int
  num_steps : Int
  deriving DecidableEq, Repr

/-- Modelled from the spec: the weighted-sampler builder
`build(weights, batch_size, num_steps) -> sampler_handle`
(`get_weighted_sampler`, not under the sources studied here); the draw
algorithm is delegated, the handle records its parameters. -/
def get_weighted_sampler (sample_weights : List ℚ) (batch_size : Int)
    (num_steps : Int) : SamplerHandle :=
  ⟨sample_weights, batch_size, num_steps⟩

/-- Modelled from the spec: the tensor stack/pad utility
`stack(list_of_1d_arrays, target_len) -> 2d_array` (`stack_tensors`, not
under the sources studied here): right-pads every row with zeros to the
target length and stacks. -/
def stack_tensors (tensors : List (List ℚ)) (max_len : Nat) :
    List (List ℚ) :=
  tensors.map (fun t => t ++ List.replicate (max_len - t.length) 0)

/-- Reduction `torch.max` over a 1-D integer tensor: defined only on non-empty input
(PyTorch raises on an empty reduction). -/
def tensorMax : List Nat → Option Nat
  | [] => none
  | x :: xs => some (xs.foldl max x)

/-- The state of a constructed `VocoderDataset`. -/
structure VocoderDataset where
  sample_rate : Int
  n_segments : Option Int
  weighted_sample_steps : Option Int
  feature_processors : List FeatureProcessor
  data_samples : List DatasetSample
  sample_weights : List ℚ

/-- Method `VocoderDataset._process_dataset`: reads the collection's manifest,
filters by duration, and builds one `DatasetSample` plus one weight (the
collection's weight) per retained entry, in order.  The manifest reader is
an oracle from manifest path to entry list. -/
def process_dataset (read_manifest : String → List ManifestEntry)
    (dataset : DatasetMeta) (min_duration max_duration : Option ℚ) :
    List DatasetSample × List ℚ :=
  let entries := read_manifest dataset.manifest_path
  let filtered := (filter_dataset_by_duration entries min_duration max_duration).1
  (filtered.map (fun entry => DatasetSample.mk entry dataset.audio_dir),
   filtered.map (fun _ => dataset.sample_weight))

/-- Constructor `VocoderDataset.__init__`: processes every named collection in
configuration order, concatenating samples and parallel weights. -/
def VocoderDataset.init (read_manifest : String → List ManifestEntry)
    (dataset_meta : List (String × DatasetMeta)) (sample_rate : Int)
    (n_segments : Option Int) (weighted_sample_steps : Option Int)
    (feature_processors : List FeatureProcessor)
    (min_duration max_duration : Option ℚ) :
    VocoderDataset :=
  let acc := dataset_meta.foldl
    (fun acc p =>
      let sw := process_dataset read_manifest p.2 min_duration max_duration
      (acc.1 ++ sw.1, acc.2 ++ sw.2))
    ([], [])
  ⟨sample_rate, n_segments, weighted_sample_steps, feature_processors,
   acc.1, acc.2⟩

/-- Method `VocoderDataset.__len__`. -/
def VocoderDataset.length (ds : VocoderDataset) : Nat :=
  ds.data_samples.length

/-- Method `VocoderDataset.get_sampler`: `if not self.weighted_sample_steps: return
None`, otherwise build the weighted sampler from the full weight list, the
batch size and the step count. -/
def VocoderDataset.get_sampler (ds : VocoderDataset) (batch_size : Int) :
    Option SamplerHandle :=
  if pyTruthyInt ds.weighted_sample_steps = false then none
  else
    some (get_weighted_sampler ds.sample_weights batch_size
      (ds.weighted_sample_steps.getD 0))

/-- The retry loop of `VocoderDataset._segment_audio`
(`for _ in range(3)`): the decode utility is an oracle indexed by attempt
number; a failed attempt is logged and the next attempt proceeds. -/
def segment_audio_loop (decode : Nat → Except Unit (List ℚ))
    (attempt : Nat) : Nat → Option (List ℚ)
  | 0 => none
  | fuel + 1 =>
    match decode attempt with
    | .ok audio_segment => some audio_segment
    | .error _ => segment_audio_loop decode (attempt + 1) fuel

/-- Method `VocoderDataset._segment_audio`: up to 3 attempts at the decode oracle,
then `ValueError` carrying the file path. -/
def segment_audio (decode : Nat → Except Unit (List ℚ))
    (audio_filepath : FsPath) : Except AudioError (List ℚ) :=
  match segment_audio_loop decode 0 3 with
  | some audio_segment => .ok audio_segment
  | none => .error (AudioError.audioReadError audio_filepath)

/-- Method `VocoderDataset._sample_audio`: `if not self.n_segments`, a single
full-file decode (`librosa.load`, an oracle, invoked once at attempt 0) whose
failure propagates; otherwise the retried segment read.  Returns the waveform
and its length taken from the waveform's shape. -/
def VocoderDataset.sample_audio (ds : VocoderDataset)
    (load_full : Nat → Except Unit (List ℚ))
    (decode_seg : Nat → Except Unit (List ℚ))
    (audio_filepath : FsPath) : Except AudioError (List ℚ × Nat) :=
  if pyTruthyInt ds.n_segments = false then
    match load_full 0 with
    | .error _ => .error AudioError.decodeFailure
    | .ok audio_array => .ok (audio_array, audio_array.length)
  else
    match segment_audio decode_seg audio_filepath with
    | .error e => .error e
    | .ok audio_array => .ok (audio_array, audio_array.length)

/-- Method `VocoderDataset.__getitem__`: resolves the sample's path against its
audio root, samples the audio at the absolute path, builds the example with
the relative path, and runs the feature-processor chain in order.  `none`
models an index out of range; a sampling error propagates. -/
def VocoderDataset.getitem (ds : VocoderDataset)
    (load_full : Nat → Except Unit (List ℚ))
    (decode_seg : Nat → Except Unit (List ℚ)) (index : Nat) :
    Option (Except AudioError Example) :=
  match ds.data_samples[index]? with
  | none => none
  | some data =>
    match ds.sample_audio load_full decode_seg
        (get_abs_rel_paths data.manifest_entry.audio_filepath
          data.audio_dir).1 with
    | .error e => some (.error e)
    | .ok al =>
      some (.ok (ds.feature_processors.foldl (fun ex p => p ex)
        ⟨(get_abs_rel_paths data.manifest_entry.audio_filepath
            data.audio_dir).2,
         al.1, al.2⟩))

/-- The collated batch record. -/
structure Batch where
  audio_filepaths : List FsPath
  audio : List (List ℚ)
  audio_lens : List Nat
  deriving DecidableEq, Repr

/-- Method `VocoderDataset.collate_fn`: per-example lengths are recomputed from the
audio array's shape; the waveforms are right-padded to the batch maximum and
stacked.  `none` models the `torch.max` failure on an empty batch. -/
def collate_fn (batch : List Example) : Option Batch :=
  let audio_filepath_list := batch.map Example.audio_filepath
  let audio_list := batch.map Example.audio
  let audio_len_list := batch.map (fun ex => ex.audio.length)
  match tensorMax audio_len_list with
  | none => none
  | some audio_max_len =>
    some ⟨audio_filepath_list,
          stack_tensors audio_list audio_max_len,
          audio_len_list⟩

/-! Concrete fixtures used by witnesses and counterexamples. -/

/-- A relative manifest path to one recording. -/
def entryA : ManifestEntry := ⟨⟨false, ["a.wav"]⟩, 2⟩

/-- A dataset sample rooted at the absolute directory `/data`. -/
def sampleA : DatasetSample := ⟨entryA, ⟨true, ["data"]⟩⟩

/-- The absolute path of `sampleA`'s recording. -/
def pathA : FsPath := ⟨true, ["data", "a.wav"]⟩

/-- A dataset configured with a fixed segment length. -/
def dsSeg : VocoderDataset := ⟨22050, some 8192, none, [], [sampleA], [1]⟩

/-- A dataset configured with no segment length (full-file decode path). -/
def dsFull : VocoderDataset := ⟨22050, none, none, [], [sampleA], [1]⟩

/-- A dataset whose segment length is configured as exactly 0. -/
def dsSeg0 : VocoderDataset := ⟨22050, some 0, none, [], [sampleA], [1]⟩

/-- A dataset whose weighted-sampling step count is configured as exactly 0. -/
def dsSteps0 : VocoderDataset := ⟨22050, none, some 0, [], [sampleA], [1]⟩

/-- A dataset with a nonzero weighted-sampling step count. -/
def dsSteps5 : VocoderDataset := ⟨22050, none, some 5, [], [sampleA], [1]⟩

/-- A decode oracle that fails on attempts 0 and 1 and succeeds from
attempt 2 on. -/
def decodeFailTwice : Nat → Except Unit (List ℚ) :=
  fun n => if n < 2 then .error () else .ok [1, 2]

/-- A decode oracle that fails on every attempt. -/
def decodeFailAll : Nat → Except Unit (List ℚ) := fun _ => .error ()

/-- A full-file load oracle that always succeeds with a 3-sample waveform. -/
def loadOk : Nat → Except Unit (List ℚ) := fun _ => .ok [1, 2, 3]

/-- A full-file load oracle that fails on the first call but would succeed on
any retry. -/
def loadFirstFails : Nat → Except Unit (List ℚ) :=
  fun n => if n = 0 then .error () else .ok [1]

/-- A feature processor that appends a sample to the audio and leaves the
stored length untouched. -/
def procGrow : FeatureProcessor :=
  fun ex => ⟨ex.audio_filepath, ex.audio ++ [0], ex.audio_len⟩

/-- A dataset configured with the length-desynchronising processor. -/
def dsC7 : VocoderDataset := ⟨22050, none, none, [procGrow], [sampleA], [1]⟩

/-- The example `dsC7` produces at index 0 under `loadOk`. -/
def exC7 : Example := ⟨⟨false, ["a.wav"]⟩, [1, 2, 3, 0], 3⟩

/-- A feature processor that appends a sample and updates the stored
length. -/
def procKeep : FeatureProcessor :=
  fun ex => ⟨ex.audio_filepath, ex.audio ++ [0], ex.audio_len + 1⟩

/-- A dataset configured with the length-maintaining processor. -/
def dsC7b : VocoderDataset := ⟨22050, none, none, [procKeep], [sampleA], [1]⟩

/-- The example `dsC7b` produces at index 0 under `loadOk`. -/
def exC7b : Example := ⟨⟨false, ["a.wav"]⟩, [1, 2, 3, 0], 4⟩

/-- A one-example batch whose stored length field (99) disagrees with its
2-sample audio. -/
def batchC4 : List Example := [⟨⟨false, ["a.wav"]⟩, [5, 6], 99⟩]

/-- The batch `collate_fn` produces from `batchC4`. -/
def bC4 : Batch := ⟨[⟨false, ["a.wav"]⟩], [[5, 6]], [2]⟩

/-- A three-example batch with audio lengths 1, 3, 2. -/
def batchC2 : List Example :=
  [⟨⟨false, ["a.wav"]⟩, [5], 1⟩,
   ⟨⟨false, ["b.wav"]⟩, [6, 7, 8], 3⟩,
   ⟨⟨false, ["c.wav"]⟩, [9, 10], 2⟩]

/-- Collection A's manifest: 3 entries. -/
def manifestA : List ManifestEntry :=
  [⟨⟨false, ["a1.wav"]⟩, 1⟩, ⟨⟨false, ["a2.wav"]⟩, 2⟩,
   ⟨⟨false, ["a3.wav"]⟩, 3⟩]

/-- Collection B's manifest: 5 entries. -/
def manifestB : List ManifestEntry :=
  [⟨⟨false, ["b1.wav"]⟩, 1⟩, ⟨⟨false, ["b2.wav"]⟩, 2⟩,
   ⟨⟨false, ["b3.wav"]⟩, 3⟩, ⟨⟨false, ["b4.wav"]⟩, 4⟩,
   ⟨⟨false, ["b5.wav"]⟩, 5⟩]

/-- A manifest-reader oracle serving the two scenario manifests. -/
def readManifestW : String → List ManifestEntry :=
  fun s => if s = "A.json" then manifestA else manifestB

/-- Collection A: weight 2, manifest of 3 entries. -/
def metaA : DatasetMeta := ⟨"A.json", ⟨true, ["A"]⟩, 2⟩

/-- Collection B: weight 1, manifest of 5 entries. -/
def metaB : DatasetMeta := ⟨"B.json", ⟨true, ["B"]⟩, 1⟩

/-- The two-collection scenario configuration, in order A then B. -/
def metasW : List (String × DatasetMeta) := [("A", metaA), ("B", metaB)]

/-- The dataset assembled from the two-collection scenario with no duration
bounds. -/
def dsW : VocoderDataset :=
  VocoderDataset.init readManifestW metasW 22050 none none [] none none

/-! Claim theorems. -/

/-- Claim C1: with a fixed segment length configured, an indexed access's
segment read is attempted up to 3 times; if the decode utility fails exactly
twice and succeeds on the third attempt, the read returns the successful
waveform (with its length) without raising, and if it fails on all 3
consecutive attempts the read raises the terminal read error carrying the
file path. -/
theorem claim_C1 (ds : VocoderDataset) (hn : pyTruthyInt ds.n_segments = true)
    (load d2 d3 : Nat → Except Unit (List ℚ)) (path : FsPath) (a : List ℚ)
    (h20 : d2 0 = .error ()) (h21 : d2 1 = .error ()) (h22 : d2 2 = .ok a)
    (h30 : d3 0 = .error ()) (h31 : d3 1 = .error ()) (h32 : d3 2 = .error ()) :
    ds.sample_audio load d2 path = .ok (a, a.length) ∧
    ds.sample_audio load d3 path = .error (AudioError.audioReadError path) := by
  constructor <;>
    simp [VocoderDataset.sample_audio, hn, segment_audio, segment_audio_loop,
      h20, h21, h22, h30, h31, h32]

/-- Witness for C1 at a concrete dataset, path and oracles. -/
theorem claim_C1_witness :
    dsSeg.sample_audio loadOk decodeFailTwice pathA = .ok ([1, 2], 2) ∧
    dsSeg.sample_audio loadOk decodeFailAll pathA =
      .error (AudioError.audioReadError pathA) :=
  claim_C1 dsSeg rfl loadOk decodeFailTwice decodeFailAll pathA [1, 2]
    rfl rfl rfl rfl rfl rfl

/-- Claim C6: with no fixed segment length configured, indexed access decodes
the whole file once: a failure of the single full-file decode call propagates
immediately as a decode error, whatever any further attempt would return. -/
theorem claim_C6 (ds : VocoderDataset) (hn : ds.n_segments = none)
    (load decode : Nat → Except Unit (List ℚ)) (path : FsPath)
    (h0 : load 0 = .error ()) :
    ds.sample_audio load decode path = .error AudioError.decodeFailure := by
  simp [VocoderDataset.sample_audio, hn, pyTruthyInt, h0]

/-- Witness for C6: the first full-file decode fails, a retry would have
succeeded, and the error still propagates immediately. -/
theorem claim_C6_witness :
    dsFull.sample_audio loadFirstFails decodeFailAll pathA =
      .error AudioError.decodeFailure ∧
    loadFirstFails 1 = .ok [1] :=
  ⟨claim_C6 dsFull rfl loadFirstFails decodeFailAll pathA rfl, rfl⟩

/-- Claim C10: a fixed segment length configured as exactly 0 behaves like no
segment length at all: sampling takes the full-file decode path (no retry
loop) and returns the whole waveform with its length. -/
theorem claim_C10 (ds : VocoderDataset) (hn : ds.n_segments = some 0)
    (load decode : Nat → Except Unit (List ℚ)) (path : FsPath) :
    ds.sample_audio load decode path =
      {ds with n_segments := none}.sample_audio load decode path ∧
    (∀ a : List ℚ, load 0 = .ok a →
      ds.sample_audio load decode path = .ok (a, a.length)) := by
  constructor
  · simp [VocoderDataset.sample_audio, hn, pyTruthyInt]
  · intro a ha
    simp [VocoderDataset.sample_audio, hn, pyTruthyInt, ha]

/-- Witness for C10 at a concrete dataset with segment length 0. -/
theorem claim_C10_witness :
    dsSeg0.sample_audio loadOk decodeFailAll pathA =
      {dsSeg0 with n_segments := none}.sample_audio loadOk decodeFailAll pathA ∧
    dsSeg0.sample_audio loadOk decodeFailAll pathA = .ok ([1, 2, 3], 3) :=
  ⟨(claim_C10 dsSeg0 rfl loadOk decodeFailAll pathA).1,
   (claim_C10 dsSeg0 rfl loadOk decodeFailAll pathA).2 [1, 2, 3] rfl⟩

/-- Claim C9: a weighted-sampling step count configured as exactly 0 is
treated the same as no step count: `get_sampler` returns none, exactly as it
does for the unconfigured dataset. -/
theorem claim_C9 (ds : VocoderDataset)
    (hw : ds.weighted_sample_steps = some 0) (batch_size : Int) :
    ds.get_sampler batch_size = none ∧
    ds.get_sampler batch_size =
      {ds with weighted_sample_steps := none}.get_sampler batch_size := by
  constructor <;> simp [VocoderDataset.get_sampler, hw, pyTruthyInt]

/-- Witness for C9 at a concrete dataset with step count 0. -/
theorem claim_C9_witness :
    dsSteps0.get_sampler 4 = none ∧
    dsSteps0.get_sampler 4 =
      {dsSteps0 with weighted_sample_steps := none}.get_sampler 4 :=
  claim_C9 dsSteps0 rfl 4

/-- Counterexample to C5 as stated: a step count is configured (it is
`some 0`), yet `get_sampler` returns none, because the presence check is a
falsiness check. -/
theorem claim_C5_counterexample :
    dsSteps0.weighted_sample_steps = some 0 ∧ dsSteps0.get_sampler 16 = none :=
  ⟨rfl, rfl⟩

/-- Claim C5 (amended): `get_sampler` returns none exactly when no
weighted-sampling step count is configured or the configured count is 0; for
any configured nonzero count n it returns the handle built from the full
sample-weight list, the batch size and n. -/
theorem claim_C5 (ds : VocoderDataset) (batch_size : Int) :
    (ds.get_sampler batch_size = none ↔
      (ds.weighted_sample_steps = none ∨ ds.weighted_sample_steps = some 0)) ∧
    (∀ n : Int, ds.weighted_sample_steps = some n → n ≠ 0 →
      ds.get_sampler batch_size =
        some (get_weighted_sampler ds.sample_weights batch_size n)) := by
  constructor
  · cases hw : ds.weighted_sample_steps with
    | none => simp [VocoderDataset.get_sampler, hw, pyTruthyInt]
    | some n =>
      by_cases hn : n = 0 <;>
        simp [VocoderDataset.get_sampler, hw, pyTruthyInt, hn]
  · intro n hw hn
    simp [VocoderDataset.get_sampler, hw, pyTruthyInt, hn]

/-- Witness for C5 (amended) at a concrete dataset with step count 5. -/
theorem claim_C5_witness :
    dsSteps5.get_sampler 16 =
      some (get_weighted_sampler dsSteps5.sample_weights 16 5) :=
  (claim_C5 dsSteps5 16).2 5 rfl (by decide)

/-! Helper lemmas about the batch maximum and collation. -/

/-- The initial accumulator bounds a left `max` fold from below. -/
theorem foldl_max_init_le (xs : List Nat) (init : Nat) :
    init ≤ xs.foldl max init := by
  induction xs generalizing init with
  | nil => simp
  | cons y ys ih => exact le_trans (le_max_left init y) (ih (max init y))

/-- Every member bounds a left `max` fold from below. -/
theorem foldl_max_mem_le {xs : List Nat} {l : Nat} (h : l ∈ xs) (init : Nat) :
    l ≤ xs.foldl max init := by
  induction xs generalizing init with
  | nil => cases h
  | cons y ys ih =>
    rcases List.mem_cons.mp h with rfl | h2
    · exact le_trans (le_max_right init l) (foldl_max_init_le ys (max init l))
    · exact ih h2 (max init y)

/-- The reduction `tensorMax` dominates every member of its input. -/
theorem tensorMax_le {xs : List Nat} {m : Nat} (hm : tensorMax xs = some m)
    {l : Nat} (h : l ∈ xs) : l ≤ m := by
  cases xs with
  | nil => cases h
  | cons x ys =>
    simp only [tensorMax, Option.some.injEq] at hm
    subst hm
    rcases List.mem_cons.mp h with rfl | h2
    · exact foldl_max_init_le ys l
    · exact foldl_max_mem_le h2 x

/-- The reduction `tensorMax` is defined on every non-empty list. -/
theorem tensorMax_of_ne_nil (xs : List Nat) (h : xs ≠ []) :
    ∃ m, tensorMax xs = some m := by
  cases xs with
  | nil => cases h rfl
  | cons x ys => exact ⟨ys.foldl max x, rfl⟩

/-- Unfolding of `collate_fn` on a batch whose length list has a maximum. -/
theorem collate_fn_eq (batch : List Example) (m : Nat)
    (hm : tensorMax (batch.map (fun ex => ex.audio.length)) = some m) :
    collate_fn batch = some
      ⟨batch.map Example.audio_filepath,
       stack_tensors (batch.map Example.audio) m,
       batch.map (fun ex => ex.audio.length)⟩ := by
  simp only [collate_fn]
  rw [hm]

/-- Claim C2: on every non-empty batch, collation succeeds, the batch
maximum of the output lengths exists, every stacked row has exactly that
length (the rectangular second dimension), every output length is bounded by
it, and every row position at or beyond its own example's length is zero. -/
theorem claim_C2 (batch : List Example) (hne : batch ≠ []) :
    ∃ b m, collate_fn batch = some b ∧ tensorMax b.audio_lens = some m ∧
      (∀ row ∈ b.audio, row.length = m) ∧
      (∀ l ∈ b.audio_lens, l ≤ m) ∧
      (∀ (i : Nat) (row : List ℚ) (li : Nat),
        b.audio[i]? = some row → b.audio_lens[i]? = some li →
        ∀ j, li ≤ j → j < m → row[j]? = some 0) := by
  obtain ⟨m, hm⟩ :=
    tensorMax_of_ne_nil (batch.map (fun ex => ex.audio.length)) (by simp [hne])
  refine ⟨_, m, collate_fn_eq batch m hm, hm, ?_, ?_, ?_⟩
  · intro row hrow
    simp only [stack_tensors, List.mem_map] at hrow
    obtain ⟨t, ⟨ex, hex, rfl⟩, rfl⟩ := hrow
    have hle : ex.audio.length ≤ m :=
      tensorMax_le hm (List.mem_map.mpr ⟨ex, hex, rfl⟩)
    simp only [List.length_append, List.length_replicate]
    omega
  · intro l hl
    exact tensorMax_le hm hl
  · intro i row li hrow hli j hj1 hj2
    simp only [stack_tensors, List.map_map, List.getElem?_map] at hrow hli
    cases hbi : batch[i]? with
    | none => rw [hbi] at hrow; cases hrow
    | some ex =>
      rw [hbi] at hrow hli
      simp only [Option.map_some', Option.some.injEq, Function.comp] at hrow hli
      subst hrow
      subst hli
      rw [List.getElem?_append_right (by omega)]
      rw [List.getElem?_eq_getElem (by simp only [List.length_replicate]; omega)]
      simp

/-- Witness for C2 at a concrete three-example batch. -/
theorem claim_C2_witness :
    ∃ b m, collate_fn batchC2 = some b ∧ tensorMax b.audio_lens = some m ∧
      (∀ row ∈ b.audio, row.length = m) ∧
      (∀ l ∈ b.audio_lens, l ≤ m) ∧
      (∀ (i : Nat) (row : List ℚ) (li : Nat),
        b.audio[i]? = some row → b.audio_lens[i]? = some li →
        ∀ j, li ≤ j → j < m → row[j]? = some 0) :=
  claim_C2 batchC2 (by decide)

/-- Claim C4: each collated length is recomputed from the example's audio
array itself (position i of the output lengths is the element count of
example i's audio), never read from the stored `audio_len` field. -/
theorem claim_C4 (batch : List Example) (i : Nat) (ex : Example)
    (hx : batch[i]? = some ex) (b : Batch) (hb : collate_fn batch = some b) :
    b.audio_lens[i]? = some ex.audio.length := by
  have hne : batch ≠ [] := by
    intro h
    subst h
    simp at hx
  obtain ⟨m, hm⟩ :=
    tensorMax_of_ne_nil (batch.map (fun ex => ex.audio.length)) (by simp [hne])
  rw [collate_fn_eq batch m hm] at hb
  cases hb
  simp [List.getElem?_map, hx]

/-- Witness for C4: a batch whose stored length 99 disagrees with its
2-sample audio collates with output length 2, not 99. -/
theorem claim_C4_witness :
    collate_fn batchC4 = some bC4 ∧ bC4.audio_lens[0]? = some 2 ∧
    (batchC4.map Example.audio_len)[0]? = some 99 :=
  ⟨by decide,
   claim_C4 batchC4 0 ⟨⟨false, ["a.wav"]⟩, [5, 6], 99⟩ (by decide) bC4 (by decide),
   by decide⟩

/-- The assembly fold of `VocoderDataset.init`, characterised as flattened
per-collection outputs appended to the accumulator. -/
theorem init_foldl (read_manifest : String → List ManifestEntry)
    (metas : List (String × DatasetMeta)) (minD maxD : Option ℚ)
    (s0 : List DatasetSample) (w0 : List ℚ) :
    metas.foldl
      (fun acc p =>
        (acc.1 ++ (process_dataset read_manifest p.2 minD maxD).1,
         acc.2 ++ (process_dataset read_manifest p.2 minD maxD).2)) (s0, w0) =
    (s0 ++ (metas.map
        (fun p => (process_dataset read_manifest p.2 minD maxD).1)).flatten,
     w0 ++ (metas.map
        (fun p => (process_dataset read_manifest p.2 minD maxD).2)).flatten) := by
  induction metas generalizing s0 w0 with
  | nil => simp
  | cons q qs ih =>
    simp only [List.foldl_cons, List.map_cons, List.flatten_cons]
    rw [ih]
    simp [List.append_assoc]

/-- The constructed dataset, with its sample and weight lists in closed
form. -/
theorem init_eq (read_manifest : String → List ManifestEntry)
    (dataset_meta : List (String × DatasetMeta)) (sample_rate : Int)
    (n_segments weighted_sample_steps : Option Int)
    (feature_processors : List FeatureProcessor)
    (min_duration max_duration : Option ℚ) :
    VocoderDataset.init read_manifest dataset_meta sample_rate n_segments
      weighted_sample_steps feature_processors min_duration max_duration =
    ⟨sample_rate, n_segments, weighted_sample_steps, feature_processors,
     (dataset_meta.map (fun p =>
        (process_dataset read_manifest p.2 min_duration max_duration).1)).flatten,
     (dataset_meta.map (fun p =>
        (process_dataset read_manifest p.2 min_duration max_duration).2)).flatten⟩ := by
  simp only [VocoderDataset.init]
  rw [init_foldl]
  simp

/-- Claim C3: after construction the dataset length is the sum of the
collections' filtered entry counts, the weight list is index-aligned with the
sample list, and samples and weights are laid out collection-by-collection in
configuration order, within a collection in filtered order, each weight being
its collection's configured weight. -/
theorem claim_C3 (read_manifest : String → List ManifestEntry)
    (dataset_meta : List (String × DatasetMeta)) (sample_rate : Int)
    (n_segments weighted_sample_steps : Option Int)
    (feature_processors : List FeatureProcessor)
    (min_duration max_duration : Option ℚ) (ds : VocoderDataset)
    (hds : ds = VocoderDataset.init read_manifest dataset_meta sample_rate
      n_segments weighted_sample_steps feature_processors min_duration
      max_duration) :
    ds.length = (dataset_meta.map (fun p =>
        ((filter_dataset_by_duration (read_manifest p.2.manifest_path)
          min_duration max_duration).1).length)).sum ∧
    ds.sample_weights.length = ds.data_samples.length ∧
    ds.data_samples = (dataset_meta.map (fun p =>
        ((filter_dataset_by_duration (read_manifest p.2.manifest_path)
          min_duration max_duration).1).map
         (fun entry => DatasetSample.mk entry p.2.audio_dir))).flatten ∧
    ds.sample_weights = (dataset_meta.map (fun p =>
        ((filter_dataset_by_duration (read_manifest p.2.manifest_path)
          min_duration max_duration).1).map
         (fun _ => p.2.sample_weight))).flatten := by
  subst hds
  rw [init_eq]
  refine ⟨?_, ?_, ?_, ?_⟩
  · simp [VocoderDataset.length, List.length_flatten, List.map_map,
      Function.comp_def, process_dataset, List.length_map]
  · simp [List.length_flatten, List.map_map, Function.comp_def,
      process_dataset, List.length_map, List.length_replicate]
  · simp [process_dataset]
  · simp [process_dataset]

/-- Witness for C3: the spec scenario, collection A (weight 2, 3 entries)
then collection B (weight 1, 5 entries) gives length 8 and weights
[2, 2, 2, 1, 1, 1, 1, 1]. -/
theorem claim_C3_witness :
    dsW.length = 8 ∧ dsW.sample_weights = [2, 2, 2, 1, 1, 1, 1, 1] ∧
    dsW.sample_weights.length = dsW.data_samples.length := by
  have h := claim_C3 readManifestW metasW 22050 none none [] none none dsW rfl
  refine ⟨?_, ?_, h.2.1⟩
  · rw [h.1]
    decide
  · rw [h.2.2.2]
    decide

/-- Both branches of `_sample_audio` return the waveform's element count as
the length. -/
theorem sample_audio_len (ds : VocoderDataset)
    (load decode : Nat → Except Unit (List ℚ)) (path : FsPath)
    (al : List ℚ × Nat)
    (h : ds.sample_audio load decode path = .ok al) : al.2 = al.1.length := by
  unfold VocoderDataset.sample_audio at h
  split at h
  · split at h
    · cases h
    · cases h
      rfl
  · split at h
    · cases h
    · cases h
      rfl

/-- A property preserved by every processor of a chain is preserved by the
chain's fold. -/
theorem foldl_process_preserve (ps : List FeatureProcessor)
    (P : Example → Prop) (hp : ∀ p ∈ ps, ∀ e : Example, P e → P (p e))
    (e : Example) (he : P e) :
    P (ps.foldl (fun ex p => p ex) e) := by
  induction ps generalizing e with
  | nil => exact he
  | cons q qs ih =>
    exact ih (fun p hmem => hp p (List.mem_cons_of_mem q hmem)) (q e)
      (hp q (List.mem_cons_self q qs) e he)

/-- A successful indexed access, decomposed: the audio sampled at the
resolved absolute path, the waveform-length invariant, and the returned
example as the processor chain's fold over the freshly built example. -/
theorem getitem_ok (ds : VocoderDataset)
    (load decode : Nat → Except Unit (List ℚ)) (index : Nat)
    (data : DatasetSample) (hd : ds.data_samples[index]? = some data)
    (ex : Example) (hx : ds.getitem load decode index = some (.ok ex)) :
    ∃ al : List ℚ × Nat,
      ds.sample_audio load decode
        (get_abs_rel_paths data.manifest_entry.audio_filepath
          data.audio_dir).1 = .ok al ∧
      al.2 = al.1.length ∧
      ex = ds.feature_processors.foldl (fun e p => p e)
        ⟨(get_abs_rel_paths data.manifest_entry.audio_filepath
            data.audio_dir).2, al.1, al.2⟩ := by
  unfold VocoderDataset.getitem at hx
  split at hx
  · cases hx
  · rename_i data2 heq2
    rw [hd] at heq2
    injection heq2 with heq2
    subst heq2
    split at hx
    · cases hx
    · rename_i al heq
      refine ⟨al, heq, sample_audio_len ds load decode _ al heq, ?_⟩
      injection hx with hx1
      injection hx1 with hx2
      exact hx2.symm

/-- Counterexample to C7 as stated: with a processor that resizes the audio
without touching the stored length, `get(0)` returns an example whose
`audio_len` (3) is not the element count of its `audio` (4). -/
theorem claim_C7_counterexample :
    dsC7.getitem loadOk decodeFailAll 0 = some (.ok exC7) ∧
    exC7.audio_len ≠ exC7.audio.length :=
  ⟨rfl, by decide⟩

/-- Claim C7 (amended): the example built by indexed access satisfies
`audio_len = audio element count` before the processor chain and hence also
after it whenever every configured processor preserves that invariant (in
particular for a dataset with no processors); a processor free to resize
`audio` alone can break it. -/
theorem claim_C7 (ds : VocoderDataset)
    (hp : ∀ p ∈ ds.feature_processors, ∀ e : Example,
      e.audio_len = e.audio.length → (p e).audio_len = (p e).audio.length)
    (load decode : Nat → Except Unit (List ℚ)) (index : Nat) (ex : Example)
    (hx : ds.getitem load decode index = some (.ok ex)) :
    ex.audio_len = ex.audio.length := by
  cases hd : ds.data_samples[index]? with
  | none =>
    unfold VocoderDataset.getitem at hx
    rw [hd] at hx
    cases hx
  | some data =>
    obtain ⟨al, hok, hlen, hex⟩ := getitem_ok ds load decode index data hd ex hx
    subst hex
    exact foldl_process_preserve ds.feature_processors
      (fun e => e.audio_len = e.audio.length) hp _ hlen

/-- Witness for C7 (amended) at a dataset whose single processor maintains
the length invariant while resizing. -/
theorem claim_C7_witness : exC7b.audio_len = exC7b.audio.length :=
  claim_C7 dsC7b
    (by
      intro p hmem e he
      simp only [dsC7b, List.mem_singleton] at hmem
      subst hmem
      simp [procKeep, he])
    loadOk decodeFailAll 0 exC7b rfl

/-- Claim C8: for a well-formed sample path (relative, or absolute with the
audio root leading it), resolving the returned example's relative
`audio_filepath` against the sample's audio root reproduces the absolute
path handed to the audio decode step, provided the processors leave the
`audio_filepath` field alone. -/
theorem claim_C8 (ds : VocoderDataset)
    (load decode : Nat → Except Unit (List ℚ)) (index : Nat)
    (data : DatasetSample) (hd : ds.data_samples[index]? = some data)
    (hp : ∀ p ∈ ds.feature_processors, ∀ e : Example,
      (p e).audio_filepath = e.audio_filepath)
    (ex : Example) (hx : ds.getitem load decode index = some (.ok ex))
    (hwf : data.manifest_entry.audio_filepath.absolute = false ∨
      (data.audio_dir.absolute = true ∧
       data.audio_dir.components ++
         data.manifest_entry.audio_filepath.components.drop
           data.audio_dir.components.length =
         data.manifest_entry.audio_filepath.components)) :
    joinPath data.audio_dir ex.audio_filepath =
      (get_abs_rel_paths data.manifest_entry.audio_filepath
        data.audio_dir).1 := by
  obtain ⟨al, hok, hlen, hex⟩ := getitem_ok ds load decode index data hd ex hx
  have hfp : ex.audio_filepath =
      (get_abs_rel_paths data.manifest_entry.audio_filepath
        data.audio_dir).2 := by
    subst hex
    exact foldl_process_preserve ds.feature_processors
      (fun e => e.audio_filepath =
        (get_abs_rel_paths data.manifest_entry.audio_filepath
          data.audio_dir).2)
      (fun p hmem e he => by
        show (p e).audio_filepath = _
        rw [hp p hmem e]
        exact he) _ rfl
  rw [hfp]
  cases hpabs : data.manifest_entry.audio_filepath.absolute with
  | false => simp [get_abs_rel_paths, hpabs, joinPath]
  | true =>
    rcases hwf with habs | ⟨hb, hcomp⟩
    · rw [habs] at hpabs
      cases hpabs
    · have heta : data.manifest_entry.audio_filepath =
          ⟨data.manifest_entry.audio_filepath.absolute,
           data.manifest_entry.audio_filepath.components⟩ := rfl
      simp only [get_abs_rel_paths, hpabs, if_true, relativeTo, joinPath]
      rw [heta, hpabs]
      simp [FsPath.mk.injEq, hb, hcomp]

/-- Witness for C8 at the concrete relative-path dataset with no
processors. -/
theorem claim_C8_witness :
    joinPath sampleA.audio_dir
      (Example.mk ⟨false, ["a.wav"]⟩ [1, 2, 3] 3).audio_filepath =
    (get_abs_rel_paths sampleA.manifest_entry.audio_filepath
      sampleA.audio_dir).1 :=
  claim_C8 dsFull loadOk decodeFailAll 0 sampleA rfl
    (by
      intro p hmem e
      simp [dsFull] at hmem)
    ⟨⟨false, ["a.wav"]⟩, [1, 2, 3], 3⟩ rfl (Or.inl rfl)
